import Mathlib

/-!
Verification of the ECDSA operation dispatcher of cpu/libacvp
(src/app/app_ecdsa.c).

The file shallowly embeds the dispatcher `app_ecdsa_handler` in its three
build variants (the modern OpenSSL 3 provider branch, the legacy FIPS
branch, and the capability stub), the process-wide group key cache
(`ecdsa_group_Qx`, `ecdsa_group_Qy`, `ecdsa_current_tg`, `group_pkey` /
`ecdsa_group_key`) together with `app_ecdsa_cleanup`, and a model of the
big-integer codec (`BN_bin2bn` / `BN_bn2bin`).

External crypto-library primitives (OpenSSL / FIPS module calls) are not
part of the repository; each call site is modelled by a field of a
`Backend` (resp. `LegacyBackend`) record so that the dispatcher's own
control flow — which is what the source contains — is translated
statement by statement.  Allocation-failure checks of the C are kept as
boolean fields; NULL-pointer dereferences that the C would perform are
represented by the distinguished error outcome `nullKeyDeref`.

Byte buffers are `List Nat` (entries intended `< 256`), big integers are
`Nat`, and a `BIGNUM *` global that may be `NULL` is `Option Nat`.
-/

namespace Acvp

/-- ACVP cipher values inspected by the ECDSA handler (`tc->cipher`);
`otherCipher` stands for every value `acvp_get_ecdsa_alg` rejects. -/
inductive ACVP_CIPHER where
  | ecdsaKeyGen
  | ecdsaKeyVer
  | ecdsaSigGen
  | ecdsaSigVer
  | otherCipher
  deriving DecidableEq

/-- ECDSA sub-algorithm (`ACVP_SUB_ECDSA`). -/
inductive ACVP_SUB_ECDSA where
  | keygen
  | keyver
  | siggen
  | sigver
  deriving DecidableEq

/-- Model of `acvp_get_ecdsa_alg`: maps the cipher to the sub-algorithm;
the C function returning `0` (invalid) is modelled as `none`. -/
def acvp_get_ecdsa_alg : ACVP_CIPHER → Option ACVP_SUB_ECDSA
  | .ecdsaKeyGen => some .keygen
  | .ecdsaKeyVer => some .keyver
  | .ecdsaSigGen => some .siggen
  | .ecdsaSigVer => some .sigver
  | .otherCipher => none

/-- Modelled from the spec: the decode direction of the Big-Integer Codec
(`BN_bin2bn`, implemented in the linked crypto library, not under src/):
big-endian, no sign bit, always non-negative (spec section 4.2). -/
def bn_bin2bn (bytes : List Nat) : Nat :=
  bytes.foldl (fun acc b => acc * 256 + b) 0

/-- Fuel-driven helper computing the minimal big-endian digit list of a
positive number (least significant digit pushed last). -/
def bn_bn2binAux : Nat → Nat → List Nat → List Nat
  | 0, _, acc => acc
  | fuel + 1, n, acc =>
    if n = 0 then acc else bn_bn2binAux fuel (n / 256) (n % 256 :: acc)

/-- Modelled from the spec: the encode direction of the Big-Integer Codec
(`BN_bn2bin`, implemented in the linked crypto library, not under src/):
minimal big-endian representation, no padding and no sign byte, with the
spec's stated edge case that zero encodes as a single zero byte rather
than an empty buffer (spec section 4.2). -/
def bn_bn2bin (n : Nat) : List Nat :=
  if n = 0 then [0] else bn_bn2binAux n n []

/-- An EVP_PKEY / EC_KEY: the private scalar and the public coordinates,
each of which the backend may fail to expose (`EVP_PKEY_get_bn_param`
returning `!= 1`, `EC_KEY_get0_private_key` returning `NULL`). -/
structure PKey where
  priv : Option Nat
  qx : Option Nat
  qy : Option Nat
  deriving DecidableEq

/-- The ECDSA test case structure (`ACVP_ECDSA_TC`): the fields the
handler reads and writes.  Byte buffers are the current buffer contents;
the `_len` fields mirror `tc->qx_len` etc. -/
structure ACVP_ECDSA_TC where
  cipher : ACVP_CIPHER
  tg_id : Int
  curve : Nat
  hash_alg : Nat
  message : List Nat
  qx : List Nat
  qy : List Nat
  d : List Nat
  r : List Nat
  s : List Nat
  qx_len : Nat
  qy_len : Nat
  d_len : Nat
  r_len : Nat
  s_len : Nat
  ver_disposition : Bool
  deriving DecidableEq

/-- The outer test-case union (`ACVP_TEST_CASE`); `tc.ecdsa` may be NULL. -/
structure ACVP_TEST_CASE where
  ecdsa : Option ACVP_ECDSA_TC
  deriving DecidableEq

/-- The process-wide group key cache: the static globals `ecdsa_group_Qx`,
`ecdsa_group_Qy`, `ecdsa_current_tg` and the cached key (`group_pkey` in
the modern build, `ecdsa_group_key` in the legacy build). -/
structure EcdsaGlobals where
  group_Qx : Option Nat
  group_Qy : Option Nat
  current_tg : Int
  group_pkey : Option PKey
  deriving DecidableEq

/-- Model of `app_ecdsa_cleanup`: frees and NULLs the cached BIGNUMs and
the cached key.  Note that `ecdsa_current_tg` is not touched by the C
function, and hence not here either. -/
def app_ecdsa_cleanup (st : EcdsaGlobals) : EcdsaGlobals :=
  { st with group_Qx := none, group_Qy := none, group_pkey := none }

/-- Failure sites of the handler: one constructor per `goto err` /
early-`return 1` site, standing for the distinct `printf` message the C
emits there.  `nullKeyDeref` marks the places where the C would
dereference a NULL cached BIGNUM / key (undefined behaviour). -/
inductive EcdsaErr where
  | noTestCase
  | noEcdsaTc
  | invalidCipher
  | invalidCurve
  | curveNameLookup
  | hashAlgLookup
  | pkeyCtxNew
  | keygenInitFail
  | setGroupNameFail
  | keygenFail
  | getPrivParam
  | getQxParam
  | getQyParam
  | getQxQyParam
  | pubKeyMarshal
  | fromdataInitFail
  | fromdataFail
  | mdCtxNew
  | signInitFail
  | sigAllocFail
  | signFail
  | sigParseFail
  | sigComponentsFail
  | sigObjNew
  | sigSet0Fail
  | verifyInitFail
  | keyNewFail
  | ecGetPubkeyFail
  | nullKeyDeref
  deriving DecidableEq

/-- The four structural-failure categories named by the spec's return-code
contract. -/
inductive ErrKind where
  | missingTestCase
  | invalidOperation
  | unresolvableParam
  | backendError
  deriving DecidableEq

/-- Classification of every failure site into the spec's structural
categories. -/
def errKind : EcdsaErr → ErrKind
  | .noTestCase => .missingTestCase
  | .noEcdsaTc => .missingTestCase
  | .invalidCipher => .invalidOperation
  | .invalidCurve => .unresolvableParam
  | .curveNameLookup => .unresolvableParam
  | .hashAlgLookup => .unresolvableParam
  | _ => .backendError

/-- Result of one handler invocation: the C return value, the failure
site (if any), the mutated test case (when one was present) and the
group key cache afterwards. -/
structure HResult where
  rv : Int
  err : Option EcdsaErr
  tc : Option ACVP_ECDSA_TC
  st : EcdsaGlobals
  deriving DecidableEq

/-- A `goto err` / early `return 1` outcome. -/
def errRes (e : EcdsaErr) (tc : Option ACVP_ECDSA_TC) (st : EcdsaGlobals) : HResult :=
  { rv := 1, err := some e, tc := tc, st := st }

/-- A run to the end of the selected switch branch (`rv = 0`). -/
def okRes (tc : Option ACVP_ECDSA_TC) (st : EcdsaGlobals) : HResult :=
  { rv := 0, err := none, tc := tc, st := st }

/-- The modern (OpenSSL 3 provider API) backend: one field per external
call site of the handler's modern branch.  Boolean fields model calls
whose only failure mode the C checks is allocation / initialization;
`Option`-valued fields model calls whose result the C inspects. -/
structure Backend where
  get_nid_for_curve : Nat → Nat
  OSSL_EC_curve_nid2name : Nat → Option Nat
  get_md_string_for_hash_alg : Nat → Option Nat
  EVP_PKEY_CTX_new_ok : Bool
  EVP_PKEY_keygen_init_ok : Bool
  EVP_PKEY_CTX_set_group_name_ok : Nat → Bool
  EVP_PKEY_keygen : Nat → Option PKey
  EVP_PKEY_generate : Nat → Option PKey
  ec_point_to_pub_key : List Nat → List Nat → Option (List Nat)
  OSSL_PARAM_BLD_to_param_ok : Bool
  EVP_PKEY_fromdata_init_ok : Bool
  EVP_PKEY_fromdata : Nat → List Nat → Option PKey
  EVP_MD_CTX_new_ok : Bool
  EVP_DigestSignInit_ok : Nat → Option PKey → Bool
  calloc_ok : Bool
  EVP_DigestSign : Nat → Option PKey → List Nat → Option (Nat × Nat)
  d2i_ECDSA_SIG_ok : Bool
  ECDSA_SIG_get0_ok : Bool
  ECDSA_SIG_new_ok : Bool
  ECDSA_SIG_set0_ok : Bool
  EVP_DigestVerifyInit_ok : Nat → PKey → Bool
  EVP_DigestVerify : Nat → PKey → List Nat → Nat → Nat → Bool

/-- Retention behaviour of `EVP_PKEY_get_bn_param(pkey, ..., &bn)` on an
in-out BIGNUM pointer: on success the BIGNUM receives the new value; on
failure the pointer is left as it was. -/
def updBN (new old : Option Nat) : Option Nat :=
  match new with
  | some v => some v
  | none => old

/-- Write-back of the KEYGEN outputs (`tc->d`, `tc->qx`, `tc->qy` and
their lengths) after all three `EVP_PKEY_get_bn_param` calls succeeded. -/
def keygenWriteD (t : ACVP_ECDSA_TC) (dv : Nat) : ACVP_ECDSA_TC :=
  { t with d := bn_bn2bin dv, d_len := (bn_bn2bin dv).length }

/-- Write-back of `tc->qx` / `tc->qx_len`. -/
def writeQx (t : ACVP_ECDSA_TC) (xv : Nat) : ACVP_ECDSA_TC :=
  { t with qx := bn_bn2bin xv, qx_len := (bn_bn2bin xv).length }

/-- Write-back of `tc->qy` / `tc->qy_len`. -/
def writeQy (t : ACVP_ECDSA_TC) (yv : Nat) : ACVP_ECDSA_TC :=
  { t with qy := bn_bn2bin yv, qy_len := (bn_bn2bin yv).length }

/-- Write-back of `tc->r` / `tc->r_len` and `tc->s` / `tc->s_len`. -/
def writeRS (t : ACVP_ECDSA_TC) (rv sv : Nat) : ACVP_ECDSA_TC :=
  { t with r := bn_bn2bin rv, r_len := (bn_bn2bin rv).length,
           s := bn_bn2bin sv, s_len := (bn_bn2bin sv).length }

/-- ACVP_SUB_ECDSA_KEYGEN branch of the modern handler (app_ecdsa.c
lines 106-144). -/
def handleKeygen (B : Backend) (st : EcdsaGlobals) (t : ACVP_ECDSA_TC)
    (cn : Nat) : HResult :=
  if ¬ B.EVP_PKEY_CTX_new_ok then errRes .pkeyCtxNew (some t) st
  else if ¬ B.EVP_PKEY_keygen_init_ok then errRes .keygenInitFail (some t) st
  else if ¬ B.EVP_PKEY_CTX_set_group_name_ok cn then errRes .setGroupNameFail (some t) st
  else
    match B.EVP_PKEY_keygen cn with
    | none => errRes .keygenFail (some t) st
    | some k =>
      match k.priv with
      | none => errRes .getPrivParam (some t) st
      | some dv =>
        let t1 := keygenWriteD t dv
        match k.qx with
        | none => errRes .getQxParam (some t1) st
        | some xv =>
          let t2 := writeQx t1 xv
          match k.qy with
          | none => errRes .getQyParam (some t2) st
          | some yv => okRes (some (writeQy t2 yv)) st

/-- ACVP_SUB_ECDSA_KEYVER branch of the modern handler (app_ecdsa.c
lines 145-170).  Note: `EVP_PKEY_CTX_new_from_name` is not NULL-checked
here in the C, and a failing `OSSL_PARAM_BLD_to_param` is printed but not
aborted on — the subsequent `EVP_PKEY_fromdata` then works on degenerate
parameters and fails, leaving the disposition 0. -/
def handleKeyver (B : Backend) (st : EcdsaGlobals) (t : ACVP_ECDSA_TC)
    (cn : Nat) : HResult :=
  let t0 := { t with ver_disposition := false }
  match B.ec_point_to_pub_key t.qx t.qy with
  | none => errRes .pubKeyMarshal (some t0) st
  | some pub =>
    if ¬ B.EVP_PKEY_fromdata_init_ok then errRes .fromdataInitFail (some t0) st
    else
      okRes (some { t with ver_disposition :=
        (if B.OSSL_PARAM_BLD_to_param_ok then B.EVP_PKEY_fromdata cn pub else none).isSome }) st

/-- The "first, generate key for every test group" block of the modern
SIGGEN branch (app_ecdsa.c lines 172-198).  On a test-group change
`ecdsa_current_tg` is assigned first and the key generated afterwards;
`EVP_PKEY_get_bn_param` on the cached BIGNUMs retains the previous value
on failure (`updBN`), and the return value of those two calls is not
checked, only the resulting pointers.  Returns the cache state afterwards,
tagged with the failure site if one was hit. -/
def siggenGen (B : Backend) (st : EcdsaGlobals) (t : ACVP_ECDSA_TC)
    (cn : Nat) : EcdsaGlobals ⊕ (EcdsaErr × EcdsaGlobals) :=
  if st.current_tg ≠ t.tg_id then
    let st1 := { st with current_tg := t.tg_id }
    if ¬ B.EVP_PKEY_CTX_new_ok then .inr (.pkeyCtxNew, st1)
    else if ¬ B.EVP_PKEY_keygen_init_ok then .inr (.keygenInitFail, st1)
    else if ¬ B.EVP_PKEY_CTX_set_group_name_ok cn then .inr (.setGroupNameFail, st1)
    else
      match B.EVP_PKEY_generate cn with
      | none => .inr (.keygenFail, st1)
      | some k =>
        let st2 := { st1 with group_pkey := some k,
                              group_Qx := updBN k.qx st1.group_Qx,
                              group_Qy := updBN k.qy st1.group_Qy }
        if st2.group_Qx = none ∨ st2.group_Qy = none then .inr (.getQxQyParam, st2)
        else .inl st2
  else .inl st

/-- ACVP_SUB_ECDSA_SIGGEN branch of the modern handler (app_ecdsa.c
lines 171-242): the per-group generation block, then the per-case
signature. -/
def handleSiggen (B : Backend) (st : EcdsaGlobals) (t : ACVP_ECDSA_TC)
    (cn mdn : Nat) : HResult :=
  match siggenGen B st t cn with
  | .inr (e, st1) => errRes e (some t) st1
  | .inl st1 =>
    if ¬ B.EVP_MD_CTX_new_ok then errRes .mdCtxNew (some t) st1
    else if ¬ B.EVP_DigestSignInit_ok mdn st1.group_pkey then errRes .signInitFail (some t) st1
    else if ¬ B.calloc_ok then errRes .sigAllocFail (some t) st1
    else
      match B.EVP_DigestSign mdn st1.group_pkey t.message with
      | none => errRes .signFail (some t) st1
      | some (rv, sv) =>
        if ¬ B.d2i_ECDSA_SIG_ok then errRes .sigParseFail (some t) st1
        else if ¬ B.ECDSA_SIG_get0_ok then errRes .sigComponentsFail (some t) st1
        else
          let t1 := writeRS t rv sv
          match st1.group_Qx, st1.group_Qy with
          | some gx, some gy => okRes (some (writeQy (writeQx t1 gx) gy)) st1
          | _, _ => errRes .nullKeyDeref (some t1) st1

/-- ACVP_SUB_ECDSA_SIGVER branch of the modern handler (app_ecdsa.c
lines 243-304).  The disposition is zeroed on entry; an import failure
(`EVP_PKEY_fromdata != 1`) is a `goto err`, unlike KEYVER. -/
def handleSigver (B : Backend) (st : EcdsaGlobals) (t : ACVP_ECDSA_TC)
    (cn mdn : Nat) : HResult :=
  let t0 := { t with ver_disposition := false }
  match B.ec_point_to_pub_key t.qx t.qy with
  | none => errRes .pubKeyMarshal (some t0) st
  | some pub =>
    if ¬ B.EVP_PKEY_CTX_new_ok then errRes .pkeyCtxNew (some t0) st
    else if ¬ B.EVP_PKEY_fromdata_init_ok then errRes .fromdataInitFail (some t0) st
    else
      match (if B.OSSL_PARAM_BLD_to_param_ok then B.EVP_PKEY_fromdata cn pub else none) with
      | none => errRes .fromdataFail (some t0) st
      | some pk =>
        let rv := bn_bin2bn t.r
        let sv := bn_bin2bn t.s
        if ¬ B.ECDSA_SIG_new_ok then errRes .sigObjNew (some t0) st
        else if ¬ B.ECDSA_SIG_set0_ok then errRes .sigSet0Fail (some t0) st
        else if ¬ B.EVP_MD_CTX_new_ok then errRes .mdCtxNew (some t0) st
        else if ¬ B.EVP_DigestVerifyInit_ok mdn pk then errRes .verifyInitFail (some t0) st
        else
          okRes (some { t with
            ver_disposition := B.EVP_DigestVerify mdn pk t.message rv sv }) st

/-- The modern (OpenSSL >= 3.0) `app_ecdsa_handler` (app_ecdsa.c lines
51-323): argument checks, cipher/curve/hash resolution, then the
four-way dispatch. -/
def app_ecdsa_handler (B : Backend) (st : EcdsaGlobals)
    (otc : Option ACVP_TEST_CASE) : HResult :=
  match otc with
  | none => errRes .noTestCase none st
  | some tcase =>
    match tcase.ecdsa with
    | none => errRes .noEcdsaTc none st
    | some t =>
      match acvp_get_ecdsa_alg t.cipher with
      | none => errRes .invalidCipher (some t) st
      | some alg =>
        if B.get_nid_for_curve t.curve = 0 then errRes .invalidCurve (some t) st
        else
          match B.OSSL_EC_curve_nid2name (B.get_nid_for_curve t.curve) with
          | none => errRes .curveNameLookup (some t) st
          | some cn =>
            if t.cipher = .ecdsaSigGen ∨ t.cipher = .ecdsaSigVer then
              match B.get_md_string_for_hash_alg t.hash_alg with
              | none => errRes .hashAlgLookup (some t) st
              | some mdn =>
                match alg with
                | .keygen => handleKeygen B st t cn
                | .keyver => handleKeyver B st t cn
                | .siggen => handleSiggen B st t cn mdn
                | .sigver => handleSigver B st t cn mdn
            else
              match alg with
              | .keygen => handleKeygen B st t cn
              | .keyver => handleKeyver B st t cn
              | .siggen => handleSiggen B st t cn 0
              | .sigver => handleSigver B st t cn 0

/-- The stub branch compiled when neither a modern nor a FIPS-capable
library is available (app_ecdsa.c lines 592-597). -/
def app_ecdsa_handler_stub (otc : Option ACVP_TEST_CASE) : Int :=
  match otc with
  | none => -1
  | some _ => 1

/-- The legacy (FIPS, OpenSSL < 3.0) backend: one field per external call
site of the handler's legacy branch.  `FIPS_bn_new` allocation checks of
the C are not modelled (the model's numbers always exist); the NULL-guard
checks on `tc` buffers are likewise not representable since modelled
buffers always exist. -/
structure LegacyBackend where
  get_md_for_hash_alg : Nat → Option Nat
  get_nid_for_curve : Nat → Nat
  EC_KEY_new_by_curve_name_ok : Nat → Bool
  EC_KEY_generate_key : Nat → Option PKey
  ec_get_pubkey_ok : Bool
  EC_KEY_set_public_key_affine_coordinates : Nat → Nat → Nat → Bool
  FIPS_ecdsa_sign_md : Option PKey → List Nat → Nat → Option (Nat × Nat)
  FIPS_ecdsa_verify_md : Nat → Nat → Nat → List Nat → Nat → Nat → Nat → Bool

/-- ACVP_SUB_ECDSA_KEYGEN branch of the legacy handler (app_ecdsa.c lines
402-431).  `EC_KEY_get0_private_key` is not NULL-checked in the C before
`BN_bn2bin`; a missing private scalar is therefore a `nullKeyDeref`. -/
def legacyKeygen (LB : LegacyBackend) (st : EcdsaGlobals) (t : ACVP_ECDSA_TC)
    (nid : Nat) : HResult :=
  if ¬ LB.EC_KEY_new_by_curve_name_ok nid then errRes .keyNewFail (some t) st
  else
    match LB.EC_KEY_generate_key nid with
    | none => errRes .keygenFail (some t) st
    | some k =>
      if ¬ (LB.ec_get_pubkey_ok ∧ k.qx.isSome ∧ k.qy.isSome) then
        errRes .ecGetPubkeyFail (some t) st
      else
        match k.qx, k.qy, k.priv with
        | some xv, some yv, some dv =>
          okRes (some (keygenWriteD (writeQy (writeQx t xv) yv) dv)) st
        | _, _, _ => errRes .nullKeyDeref (some t) st

/-- ACVP_SUB_ECDSA_KEYVER branch of the legacy handler (app_ecdsa.c lines
432-457): the disposition is PASS exactly when
`EC_KEY_set_public_key_affine_coordinates` accepts the point, FAIL
otherwise, and the branch always completes. -/
def legacyKeyver (LB : LegacyBackend) (st : EcdsaGlobals) (t : ACVP_ECDSA_TC)
    (nid : Nat) : HResult :=
  if ¬ LB.EC_KEY_new_by_curve_name_ok nid then errRes .keyNewFail (some t) st
  else
    okRes (some { t with ver_disposition :=
      LB.EC_KEY_set_public_key_affine_coordinates nid (bn_bin2bn t.qx) (bn_bin2bn t.qy) }) st

/-- ACVP_SUB_ECDSA_SIGGEN branch of the legacy handler (app_ecdsa.c lines
458-514).  On a test-group change `ecdsa_current_tg` is assigned first,
the old cached objects are freed and NULLed, and only then is the new key
generated; a failure in between leaves the cache pointing at the new
group with no key. -/
def legacySiggenGen (LB : LegacyBackend) (st : EcdsaGlobals) (t : ACVP_ECDSA_TC)
    (nid : Nat) : EcdsaGlobals ⊕ (EcdsaErr × EcdsaGlobals) :=
  if st.current_tg ≠ t.tg_id then
    let st1 : EcdsaGlobals :=
      { current_tg := t.tg_id, group_Qx := none, group_Qy := none, group_pkey := none }
    if ¬ LB.EC_KEY_new_by_curve_name_ok nid then .inr (.keyNewFail, st1)
    else
      match LB.EC_KEY_generate_key nid with
      | none => .inr (.keygenFail, { st1 with group_pkey := some ⟨none, none, none⟩ })
      | some k =>
        if ¬ (LB.ec_get_pubkey_ok ∧ k.qx.isSome ∧ k.qy.isSome) then
          .inr (.ecGetPubkeyFail, { st1 with group_pkey := some k })
        else
          .inl { st1 with group_pkey := some k, group_Qx := k.qx, group_Qy := k.qy }
  else .inl st

/-- ACVP_SUB_ECDSA_SIGGEN branch of the legacy handler: the per-group
generation block, then `FIPS_ecdsa_sign_md` and the write-back of
`qx, qy, r, s`. -/
def legacySiggen (LB : LegacyBackend) (st : EcdsaGlobals) (t : ACVP_ECDSA_TC)
    (nid mdn : Nat) : HResult :=
  match legacySiggenGen LB st t nid with
  | .inr (e, st1) => errRes e (some t) st1
  | .inl st1 =>
    match LB.FIPS_ecdsa_sign_md st1.group_pkey t.message mdn with
    | none => errRes .signFail (some t) st1
    | some (rv, sv) =>
      match st1.group_Qx, st1.group_Qy with
      | some gx, some gy => okRes (some (writeRS (writeQy (writeQx t gx) gy) rv sv)) st1
      | _, _ => errRes .nullKeyDeref (some t) st1

/-- ACVP_SUB_ECDSA_SIGVER branch of the legacy handler (app_ecdsa.c lines
515-577).  A rejected public-key point jumps to `points_err`, which falls
through to `break`: the branch completes with `rv = 0` and the
disposition is left untouched.  The disposition is only written on the
verify path (PASS / FAIL). -/
def legacySigver (LB : LegacyBackend) (st : EcdsaGlobals) (t : ACVP_ECDSA_TC)
    (nid mdn : Nat) : HResult :=
  if ¬ LB.EC_KEY_new_by_curve_name_ok nid then errRes .keyNewFail (some t) st
  else if ¬ LB.EC_KEY_set_public_key_affine_coordinates nid (bn_bin2bn t.qx) (bn_bin2bn t.qy) then
    okRes (some t) st
  else
    okRes (some { t with ver_disposition := LB.FIPS_ecdsa_verify_md nid (bn_bin2bn t.qx) (bn_bin2bn t.qy) t.message mdn (bn_bin2bn t.r) (bn_bin2bn t.s) }) st

/-- Hash resolution step of the legacy handler (app_ecdsa.c lines
381-387): the digest is looked up only for SigGen / SigVer, and a failed
lookup is fatal to the case. -/
def legacyMdStep (LB : LegacyBackend) (t : ACVP_ECDSA_TC) : Option Nat ⊕ EcdsaErr :=
  if t.cipher = .ecdsaSigGen ∨ t.cipher = .ecdsaSigVer then
    match LB.get_md_for_hash_alg t.hash_alg with
    | none => .inr .hashAlgLookup
    | some mdn => .inl (some mdn)
  else .inl none

/-- The legacy (ACVP_NO_RUNTIME, OpenSSL < 3.0) `app_ecdsa_handler`
(app_ecdsa.c lines 355-590): hash resolution precedes curve resolution in
this branch, then the same four-way dispatch. -/
def app_ecdsa_handler_legacy (LB : LegacyBackend) (st : EcdsaGlobals)
    (otc : Option ACVP_TEST_CASE) : HResult :=
  match otc with
  | none => errRes .noTestCase none st
  | some tcase =>
    match tcase.ecdsa with
    | none => errRes .noEcdsaTc none st
    | some t =>
      match legacyMdStep LB t with
      | .inr e => errRes e (some t) st
      | .inl md? =>
        if LB.get_nid_for_curve t.curve = 0 then errRes .invalidCurve (some t) st
        else
          match acvp_get_ecdsa_alg t.cipher with
          | none => errRes .invalidCipher (some t) st
          | some alg =>
            let nid := LB.get_nid_for_curve t.curve
            match alg with
            | .keygen => legacyKeygen LB st t nid
            | .keyver => legacyKeyver LB st t nid
            | .siggen => legacySiggen LB st t nid (md?.getD 0)
            | .sigver => legacySigver LB st t nid (md?.getD 0)

/-- A concrete modern backend used to instantiate the theorems: toy
identifiers (curve 1 resolving to nid 415 and curve name 256, hash 1 to
md 32), a fixed generated key (d = 7, Qx = 5, Qy = 6), signing that
requires a non-NULL key, and a verify primitive enforcing the range
contract for the toy order 97. -/
def okBackend : Backend where
  get_nid_for_curve := fun c => if c = 1 then 415 else 0
  OSSL_EC_curve_nid2name := fun n => if n = 415 then some 256 else none
  get_md_string_for_hash_alg := fun h => if h = 1 then some 32 else none
  EVP_PKEY_CTX_new_ok := true
  EVP_PKEY_keygen_init_ok := true
  EVP_PKEY_CTX_set_group_name_ok := fun _ => true
  EVP_PKEY_keygen := fun _ => some ⟨some 7, some 5, some 6⟩
  EVP_PKEY_generate := fun _ => some ⟨some 7, some 5, some 6⟩
  ec_point_to_pub_key := fun qx qy => some (4 :: (qx ++ qy))
  OSSL_PARAM_BLD_to_param_ok := true
  EVP_PKEY_fromdata_init_ok := true
  EVP_PKEY_fromdata := fun _ _ => some ⟨none, some 5, some 6⟩
  EVP_MD_CTX_new_ok := true
  EVP_DigestSignInit_ok := fun _ k => k.isSome
  calloc_ok := true
  EVP_DigestSign := fun _ k _ => if k.isSome then some (11, 12) else none
  d2i_ECDSA_SIG_ok := true
  ECDSA_SIG_get0_ok := true
  ECDSA_SIG_new_ok := true
  ECDSA_SIG_set0_ok := true
  EVP_DigestVerifyInit_ok := fun _ _ => true
  EVP_DigestVerify := fun _ _ _ r s => decide (1 ≤ r ∧ r < 97 ∧ 1 ≤ s ∧ s < 97)

/-- The concrete backend with a public-key import that rejects the
supplied point (`EVP_PKEY_fromdata != 1`). -/
def badImportBackend : Backend :=
  { okBackend with EVP_PKEY_fromdata := fun _ _ => none }

/-- The concrete backend whose key generation fails at
`EVP_PKEY_keygen_init` (a backend error). -/
def brokenKeygenBackend : Backend :=
  { okBackend with EVP_PKEY_keygen_init_ok := false }

/-- A concrete legacy backend mirroring `okBackend`. -/
def okLegacy : LegacyBackend where
  get_md_for_hash_alg := fun h => if h = 1 then some 32 else none
  get_nid_for_curve := fun c => if c = 1 then 415 else 0
  EC_KEY_new_by_curve_name_ok := fun _ => true
  EC_KEY_generate_key := fun _ => some ⟨some 7, some 5, some 6⟩
  ec_get_pubkey_ok := true
  EC_KEY_set_public_key_affine_coordinates := fun _ _ _ => true
  FIPS_ecdsa_sign_md := fun k _ _ => if k.isSome then some (11, 12) else none
  FIPS_ecdsa_verify_md := fun _ _ _ _ _ r s => decide (1 ≤ r ∧ r < 97 ∧ 1 ≤ s ∧ s < 97)

/-- The concrete legacy backend whose
`EC_KEY_set_public_key_affine_coordinates` rejects the supplied point. -/
def badPointLegacy : LegacyBackend :=
  { okLegacy with EC_KEY_set_public_key_affine_coordinates := fun _ _ _ => false }

/-- A concrete ECDSA test case (SigVer shape; theorems adjust fields). -/
def tcBase : ACVP_ECDSA_TC where
  cipher := .ecdsaSigVer
  tg_id := 1
  curve := 1
  hash_alg := 1
  message := [1, 2, 3]
  qx := [5]
  qy := [6]
  d := []
  r := [11]
  s := [12]
  qx_len := 1
  qy_len := 1
  d_len := 0
  r_len := 1
  s_len := 1
  ver_disposition := false

/-- The concrete test case as a SigGen case of test group 1. -/
def tcSiggen1 : ACVP_ECDSA_TC :=
  { tcBase with cipher := .ecdsaSigGen, tg_id := 1 }

/-- The concrete test case as a SigGen case of test group 2. -/
def tcSiggen2 : ACVP_ECDSA_TC :=
  { tcBase with cipher := .ecdsaSigGen, tg_id := 2 }

/-- The concrete test case as a SigGen case carrying group id 0, the
initial value of `ecdsa_current_tg`. -/
def tcSiggen0 : ACVP_ECDSA_TC :=
  { tcBase with cipher := .ecdsaSigGen, tg_id := 0 }

/-- The concrete test case as a KeyVer case. -/
def tcKeyver : ACVP_ECDSA_TC :=
  { tcBase with cipher := .ecdsaKeyVer }

/-- The concrete SigVer test case with an out-of-range signature
component: `r` decodes to 0. -/
def tcBadR : ACVP_ECDSA_TC :=
  { tcBase with r := [0] }

/-- The pristine cache at process start: NULL pointers and
`ecdsa_current_tg = 0`. -/
def st0 : EcdsaGlobals where
  group_Qx := none
  group_Qy := none
  current_tg := 0
  group_pkey := none

/-- A cache state holding the key generated for test group 1. -/
def stCached : EcdsaGlobals where
  group_Qx := some 5
  group_Qy := some 6
  current_tg := 1
  group_pkey := some ⟨some 7, some 5, some 6⟩

/-! ## Big-integer codec lemmas -/

theorem bn_bn2binAux_eq :
    ∀ (fuel n : Nat) (acc : List Nat), n ≤ fuel →
      bn_bn2binAux fuel n acc = (Nat.digits 256 n).reverse ++ acc := by
  intro fuel
  induction fuel with
  | zero =>
    intro n acc h
    have hn : n = 0 := Nat.le_zero.mp h
    subst hn
    simp [bn_bn2binAux]
  | succ f ih =>
    intro n acc h
    by_cases hn : n = 0
    · subst hn
      simp [bn_bn2binAux]
    · have hlt : n / 256 ≤ f :=
        Nat.lt_succ_iff.mp
          (Nat.lt_of_lt_of_le (Nat.div_lt_self (Nat.pos_of_ne_zero hn) (by norm_num)) h)
      rw [bn_bn2binAux, if_neg hn, ih (n / 256) _ hlt,
        Nat.digits_def' (by norm_num : (1 : Nat) < 256) (Nat.pos_of_ne_zero hn)]
      simp [List.append_assoc]

theorem bn_bn2bin_eq_digits (n : Nat) (h : n ≠ 0) :
    bn_bn2bin n = (Nat.digits 256 n).reverse := by
  unfold bn_bn2bin
  rw [if_neg h, bn_bn2binAux_eq n n [] le_rfl, List.append_nil]

theorem bn_bin2bn_foldl_eq (l : List Nat) (a : Nat) :
    l.foldl (fun acc b => acc * 256 + b) a =
      a * 256 ^ l.length + Nat.ofDigits 256 l.reverse := by
  induction l generalizing a with
  | nil => simp
  | cons b bs ih =>
    simp only [List.foldl_cons, ih, List.reverse_cons, Nat.ofDigits_append,
      List.length_reverse, List.length_cons, Nat.ofDigits_singleton]
    ring

theorem bn_bin2bn_eq_ofDigits (l : List Nat) :
    bn_bin2bn l = Nat.ofDigits 256 l.reverse := by
  unfold bn_bin2bn
  rw [bn_bin2bn_foldl_eq]
  simp

theorem bn_bin2bn_dropWhile (l : List Nat) :
    bn_bin2bn (l.dropWhile (fun b => b == 0)) = bn_bin2bn l := by
  induction l with
  | nil => rfl
  | cons b bs ih =>
    by_cases hb : b = 0
    · subst hb
      simpa [bn_bin2bn, List.dropWhile_cons] using ih
    · simp [List.dropWhile_cons, hb]

/-- C9: Encoding the integer zero writes a single zero byte and reports
length 1, not an empty output (the Big-Integer Codec's zero edge case,
modelled from spec section 4.2). -/
theorem c9_zero_encodes_single_byte :
    bn_bn2bin 0 = [0] ∧ (bn_bn2bin 0).length = 1 := by
  decide

/-- C8 counterexample: for the all-zero buffer `[0]`, decode-then-encode
yields `[0]` (the codec's zero edge case), not the buffer with its
leading zero bytes removed (which would be `[]`). -/
theorem c8_counterexample :
    bn_bn2bin (bn_bin2bn [0]) ≠ List.dropWhile (fun b => b == 0) [0] := by
  decide

/-- C8 (amended): for every well-formed byte buffer that decodes to a
nonzero integer, decode-then-encode reproduces the buffer with its
leading zero bytes removed, and the result carries no leading zero byte
(minimal big-endian form, no padding, no sign byte); a buffer decoding to
zero instead yields the single zero byte, per the codec's zero edge
case. -/
theorem c8_amended_roundtrip (l : List Nat) (hw : ∀ b ∈ l, b < 256)
    (hnz : bn_bin2bn l ≠ 0) :
    bn_bn2bin (bn_bin2bn l) = l.dropWhile (fun b => b == 0) ∧
      ∀ h0, (bn_bn2bin (bn_bin2bn l)).head? = some h0 → h0 ≠ 0 := by
  have hdw : bn_bin2bn (l.dropWhile (fun b => b == 0)) = bn_bin2bn l :=
    bn_bin2bn_dropWhile l
  have hne : l.dropWhile (fun b => b == 0) ≠ [] := by
    intro hcon
    apply hnz
    rw [← hdw, hcon]
    rfl
  have hsub : l.dropWhile (fun b => b == 0) ⊆ l :=
    (List.dropWhile_suffix (fun b => b == 0)).sublist.subset
  have hrevne : (l.dropWhile (fun b => b == 0)).reverse ≠ [] := by
    simpa using hne
  have hhead : ¬ ((l.dropWhile (fun b => b == 0)).head hne = 0) := by
    have := List.head_dropWhile_not (fun b => b == 0) l hne
    simpa using this
  have hdig :
      Nat.digits 256 (Nat.ofDigits 256 (l.dropWhile (fun b => b == 0)).reverse) =
        (l.dropWhile (fun b => b == 0)).reverse := by
    refine Nat.digits_ofDigits 256 (by norm_num) _ ?_ ?_
    · intro x hx
      exact hw x (hsub (List.mem_reverse.mp hx))
    · intro h
      rw [List.getLast_reverse h]
      exact hhead
  have hof : bn_bin2bn (l.dropWhile (fun b => b == 0)) =
      Nat.ofDigits 256 (l.dropWhile (fun b => b == 0)).reverse :=
    bn_bin2bn_eq_ofDigits _
  have hmain : bn_bn2bin (bn_bin2bn l) = l.dropWhile (fun b => b == 0) := by
    rw [← hdw, hof, bn_bn2bin_eq_digits _ (by rw [← hof, hdw]; exact hnz), hdig,
      List.reverse_reverse]
  refine ⟨hmain, ?_⟩
  intro h0 hh0
  rw [hmain] at hh0
  rw [List.head?_eq_head hne] at hh0
  intro hz
  apply hhead
  subst hz
  exact Option.some_injective _ hh0

/-- C8 witness: the amended round-trip instantiated at the buffer
`[1, 0]`. -/
theorem c8_witness :
    (∀ b ∈ [1, 0], b < 256) ∧ bn_bin2bn [1, 0] ≠ 0 ∧
      (bn_bn2bin (bn_bin2bn [1, 0]) = List.dropWhile (fun b => b == 0) [1, 0] ∧
        ∀ h0, (bn_bn2bin (bn_bin2bn [1, 0])).head? = some h0 → h0 ≠ 0) :=
  ⟨by decide, by decide, c8_amended_roundtrip [1, 0] (by decide) (by decide)⟩

/-! ## Return-code discipline: `rv = 0` exactly on branch completion -/

theorem handleKeygen_rv_iff (B : Backend) (st : EcdsaGlobals) (t : ACVP_ECDSA_TC)
    (cn : Nat) :
    (handleKeygen B st t cn).rv = 0 ↔ (handleKeygen B st t cn).err = none := by
  unfold handleKeygen
  repeat' split
  all_goals simp [errRes, okRes]

theorem handleKeyver_rv_iff (B : Backend) (st : EcdsaGlobals) (t : ACVP_ECDSA_TC)
    (cn : Nat) :
    (handleKeyver B st t cn).rv = 0 ↔ (handleKeyver B st t cn).err = none := by
  unfold handleKeyver
  repeat' split
  all_goals simp [errRes, okRes]

theorem handleSiggen_rv_iff (B : Backend) (st : EcdsaGlobals) (t : ACVP_ECDSA_TC)
    (cn mdn : Nat) :
    (handleSiggen B st t cn mdn).rv = 0 ↔ (handleSiggen B st t cn mdn).err = none := by
  unfold handleSiggen
  repeat' split
  all_goals simp [errRes, okRes]

theorem handleSigver_rv_iff (B : Backend) (st : EcdsaGlobals) (t : ACVP_ECDSA_TC)
    (cn mdn : Nat) :
    (handleSigver B st t cn mdn).rv = 0 ↔ (handleSigver B st t cn mdn).err = none := by
  unfold handleSigver
  repeat' split
  all_goals simp [errRes, okRes]

theorem app_ecdsa_handler_rv_iff (B : Backend) (st : EcdsaGlobals)
    (otc : Option ACVP_TEST_CASE) :
    (app_ecdsa_handler B st otc).rv = 0 ↔ (app_ecdsa_handler B st otc).err = none := by
  unfold app_ecdsa_handler
  repeat' split
  all_goals
    first
      | simp [errRes, okRes]
      | apply handleKeygen_rv_iff
      | apply handleKeyver_rv_iff
      | apply handleSiggen_rv_iff
      | apply handleSigver_rv_iff

theorem legacyKeygen_rv_iff (LB : LegacyBackend) (st : EcdsaGlobals)
    (t : ACVP_ECDSA_TC) (nid : Nat) :
    (legacyKeygen LB st t nid).rv = 0 ↔ (legacyKeygen LB st t nid).err = none := by
  unfold legacyKeygen
  repeat' split
  all_goals simp [errRes, okRes]

theorem legacyKeyver_rv_iff (LB : LegacyBackend) (st : EcdsaGlobals)
    (t : ACVP_ECDSA_TC) (nid : Nat) :
    (legacyKeyver LB st t nid).rv = 0 ↔ (legacyKeyver LB st t nid).err = none := by
  unfold legacyKeyver
  repeat' split
  all_goals simp [errRes, okRes]

theorem legacySiggen_rv_iff (LB : LegacyBackend) (st : EcdsaGlobals)
    (t : ACVP_ECDSA_TC) (nid mdn : Nat) :
    (legacySiggen LB st t nid mdn).rv = 0 ↔ (legacySiggen LB st t nid mdn).err = none := by
  unfold legacySiggen
  repeat' split
  all_goals simp [errRes, okRes]

theorem legacySigver_rv_iff (LB : LegacyBackend) (st : EcdsaGlobals)
    (t : ACVP_ECDSA_TC) (nid mdn : Nat) :
    (legacySigver LB st t nid mdn).rv = 0 ↔ (legacySigver LB st t nid mdn).err = none := by
  unfold legacySigver
  repeat' split
  all_goals simp [errRes, okRes]

theorem app_ecdsa_handler_legacy_rv_iff (LB : LegacyBackend) (st : EcdsaGlobals)
    (otc : Option ACVP_TEST_CASE) :
    (app_ecdsa_handler_legacy LB st otc).rv = 0 ↔
      (app_ecdsa_handler_legacy LB st otc).err = none := by
  unfold app_ecdsa_handler_legacy
  repeat' split
  all_goals
    first
      | apply legacyKeygen_rv_iff
      | apply legacyKeyver_rv_iff
      | apply legacySiggen_rv_iff
      | apply legacySigver_rv_iff
      | simp [errRes, okRes]

/-- C5: Every dispatcher invocation returns 0 exactly when a dispatch
branch ran to completion (no failure site was hit, including completions
that record verified = false), every failure site is one of the spec's
structural categories (missing/null test case, invalid operation,
unresolvable curve/hash name, backend error), the legacy branch obeys the
same return discipline, and the no-capability stub never reports
success. -/
theorem c5_return_code :
    (∀ (B : Backend) (st : EcdsaGlobals) (otc : Option ACVP_TEST_CASE),
      ((app_ecdsa_handler B st otc).rv = 0 ↔ (app_ecdsa_handler B st otc).err = none)) ∧
    (∀ (B : Backend) (st : EcdsaGlobals) (otc : Option ACVP_TEST_CASE) (e : EcdsaErr),
      (app_ecdsa_handler B st otc).err = some e →
        errKind e = .missingTestCase ∨ errKind e = .invalidOperation ∨
        errKind e = .unresolvableParam ∨ errKind e = .backendError) ∧
    (∀ (LB : LegacyBackend) (st : EcdsaGlobals) (otc : Option ACVP_TEST_CASE),
      ((app_ecdsa_handler_legacy LB st otc).rv = 0 ↔
        (app_ecdsa_handler_legacy LB st otc).err = none)) ∧
    (∀ otc : Option ACVP_TEST_CASE, app_ecdsa_handler_stub otc ≠ 0) := by
  refine ⟨app_ecdsa_handler_rv_iff, ?_, app_ecdsa_handler_legacy_rv_iff, ?_⟩
  · intro B st otc e _
    cases e <;> simp [errKind]
  · intro otc
    cases otc <;> simp [app_ecdsa_handler_stub]

/-- C1 counterexample: a SigVer case whose public key cannot be imported
(`EVP_PKEY_fromdata` rejects the point).  The modern dispatcher hits the
`fromdataFail` site and returns 1, not 0: the import failure aborts the
case instead of completing it successfully as the claim states. -/
theorem c1_counterexample :
    (app_ecdsa_handler badImportBackend st0 (some ⟨some tcBase⟩)).err =
      some .fromdataFail ∧
    (app_ecdsa_handler badImportBackend st0 (some ⟨some tcBase⟩)).rv ≠ 0 := by
  decide

/-- C4 (code-bug demonstration): a SigGen case for a new test group whose
key generation fails (`EVP_PKEY_keygen_init` error) is aborted with
`rv = 1`, yet the cache now records the new group id 2 while still
holding group 1's key pair; a follow-up group-2 case with a healthy
backend then completes (`rv = 0`) silently reusing group 1's cached
public key `Qx = 5`. -/
theorem c4_code_bug_cache_poisoned :
    (app_ecdsa_handler brokenKeygenBackend stCached (some ⟨some tcSiggen2⟩)).rv = 1 ∧
    stCached.current_tg = 1 ∧
    (app_ecdsa_handler brokenKeygenBackend stCached (some ⟨some tcSiggen2⟩)).st.current_tg = 2 ∧
    (app_ecdsa_handler brokenKeygenBackend stCached (some ⟨some tcSiggen2⟩)).st.group_pkey =
      stCached.group_pkey ∧
    stCached.group_Qx = some 5 ∧
    (app_ecdsa_handler okBackend
      (app_ecdsa_handler brokenKeygenBackend stCached (some ⟨some tcSiggen2⟩)).st
      (some ⟨some tcSiggen2⟩)).rv = 0 ∧
    Option.map (fun u => u.qx)
      (app_ecdsa_handler okBackend
        (app_ecdsa_handler brokenKeygenBackend stCached (some ⟨some tcSiggen2⟩)).st
        (some ⟨some tcSiggen2⟩)).tc = some [5] := by
  decide

/-- C7 (code-bug demonstration): `app_ecdsa_cleanup` NULLs the cached key
and coordinates but leaves `ecdsa_current_tg` at its last value, so the
next SigGen case carrying the same group id is treated as a cache hit: no
key pair is generated, signing is attempted with the torn-down NULL key,
and the case aborts at the signing-init site instead of generating a
fresh key as the claim states. -/
theorem c7_code_bug_cleanup_keeps_tg :
    (app_ecdsa_cleanup stCached).group_pkey = none ∧
    (app_ecdsa_cleanup stCached).group_Qx = none ∧
    (app_ecdsa_cleanup stCached).group_Qy = none ∧
    (app_ecdsa_cleanup stCached).current_tg = 1 ∧
    (app_ecdsa_handler okBackend (app_ecdsa_cleanup stCached)
      (some ⟨some tcSiggen1⟩)).err = some .signInitFail ∧
    (app_ecdsa_handler okBackend (app_ecdsa_cleanup stCached)
      (some ⟨some tcSiggen1⟩)).rv = 1 ∧
    (app_ecdsa_handler okBackend (app_ecdsa_cleanup stCached)
      (some ⟨some tcSiggen1⟩)).st = app_ecdsa_cleanup stCached := by
  decide

/-- C5 witness: the return-code discipline applied at a concrete failing
input (a NULL test case) and the structural classification of the error
it reports. -/
theorem c5_witness :
    ((app_ecdsa_handler okBackend st0 none).rv = 0 ↔
      (app_ecdsa_handler okBackend st0 none).err = none) ∧
    (errKind .noTestCase = .missingTestCase ∨ errKind .noTestCase = .invalidOperation ∨
      errKind .noTestCase = .unresolvableParam ∨ errKind .noTestCase = .backendError) ∧
    app_ecdsa_handler_stub none ≠ 0 :=
  ⟨c5_return_code.1 okBackend st0 none,
    c5_return_code.2.1 okBackend st0 none .noTestCase (by decide),
    c5_return_code.2.2.2 none⟩

/-! ## Verification dispositions and import failures -/

/-- C1 (amended): for every SigVer test case whose public key point
cannot be imported for the named curve, the modern-branch dispatcher
leaves verified = false (the disposition is zeroed on entry) but aborts
the case with return value 1 — the import failure is handled as an error,
not as a semantic negative completing with return 0; the legacy-branch
dispatcher completes such a case with return 0 but leaves the verified
field untouched rather than recording false. -/
theorem c1_amended_import_failure :
    (∀ (B : Backend) (st : EcdsaGlobals) (t : ACVP_ECDSA_TC) (cn mdn : Nat)
        (pub : List Nat),
      t.cipher = .ecdsaSigVer →
      B.get_nid_for_curve t.curve ≠ 0 →
      B.OSSL_EC_curve_nid2name (B.get_nid_for_curve t.curve) = some cn →
      B.get_md_string_for_hash_alg t.hash_alg = some mdn →
      B.ec_point_to_pub_key t.qx t.qy = some pub →
      B.EVP_PKEY_CTX_new_ok = true →
      B.EVP_PKEY_fromdata_init_ok = true →
      B.EVP_PKEY_fromdata cn pub = none →
      (app_ecdsa_handler B st (some ⟨some t⟩)).rv = 1 ∧
      (app_ecdsa_handler B st (some ⟨some t⟩)).err = some .fromdataFail ∧
      (app_ecdsa_handler B st (some ⟨some t⟩)).tc =
        some { t with ver_disposition := false }) ∧
    (∀ (LB : LegacyBackend) (st : EcdsaGlobals) (t : ACVP_ECDSA_TC) (mdn : Nat),
      t.cipher = .ecdsaSigVer →
      LB.get_md_for_hash_alg t.hash_alg = some mdn →
      LB.get_nid_for_curve t.curve ≠ 0 →
      LB.EC_KEY_new_by_curve_name_ok (LB.get_nid_for_curve t.curve) = true →
      LB.EC_KEY_set_public_key_affine_coordinates (LB.get_nid_for_curve t.curve)
        (bn_bin2bn t.qx) (bn_bin2bn t.qy) = false →
      (app_ecdsa_handler_legacy LB st (some ⟨some t⟩)).rv = 0 ∧
      (app_ecdsa_handler_legacy LB st (some ⟨some t⟩)).tc = some t) := by
  constructor
  · intro B st t cn mdn pub hc hnid hcn hmd hpub hctx hfi himp
    simp [app_ecdsa_handler, hc, acvp_get_ecdsa_alg, hnid, hcn, hmd, handleSigver,
      hpub, hctx, hfi, himp, okRes, errRes]
  · intro LB st t mdn hc hmd hnid hkn hco
    simp [app_ecdsa_handler_legacy, legacyMdStep, hc, hmd, acvp_get_ecdsa_alg, hnid,
      legacySigver, hkn, hco, okRes, errRes]

/-- C1 witness: the amended statement applied to the concrete backends
that reject the supplied public key point. -/
theorem c1_witness :
    (badImportBackend.EVP_PKEY_fromdata 256 [4, 5, 6] = none ∧
      (app_ecdsa_handler badImportBackend st0 (some ⟨some tcBase⟩)).rv = 1 ∧
      (app_ecdsa_handler badImportBackend st0 (some ⟨some tcBase⟩)).err =
        some .fromdataFail ∧
      (app_ecdsa_handler badImportBackend st0 (some ⟨some tcBase⟩)).tc =
        some { tcBase with ver_disposition := false }) ∧
    ((app_ecdsa_handler_legacy badPointLegacy st0 (some ⟨some tcBase⟩)).rv = 0 ∧
      (app_ecdsa_handler_legacy badPointLegacy st0 (some ⟨some tcBase⟩)).tc =
        some tcBase) :=
  ⟨⟨by decide,
    c1_amended_import_failure.1 badImportBackend st0 tcBase 256 32 [4, 5, 6]
      (by decide) (by decide) (by decide) (by decide) (by decide) (by decide)
      (by decide) (by decide)⟩,
    c1_amended_import_failure.2 badPointLegacy st0 tcBase 32
      (by decide) (by decide) (by decide) (by decide) (by decide)⟩

/-- C2: for every KeyVer test case whose structural steps succeed, the
dispatcher writes verified = true exactly when the supplied (Qx, Qy)
imports as a valid public key on the named curve, verified = false
otherwise, and returns 0 in both dispositions, in the modern branch
(`EVP_PKEY_fromdata`) and in the legacy branch
(`EC_KEY_set_public_key_affine_coordinates`) alike. -/
theorem c2_keyver_disposition :
    (∀ (B : Backend) (st : EcdsaGlobals) (t : ACVP_ECDSA_TC) (cn : Nat)
        (pub : List Nat),
      t.cipher = .ecdsaKeyVer →
      B.get_nid_for_curve t.curve ≠ 0 →
      B.OSSL_EC_curve_nid2name (B.get_nid_for_curve t.curve) = some cn →
      B.ec_point_to_pub_key t.qx t.qy = some pub →
      B.EVP_PKEY_fromdata_init_ok = true →
      B.OSSL_PARAM_BLD_to_param_ok = true →
      (app_ecdsa_handler B st (some ⟨some t⟩)).rv = 0 ∧
      (app_ecdsa_handler B st (some ⟨some t⟩)).tc =
        some { t with ver_disposition := (B.EVP_PKEY_fromdata cn pub).isSome }) ∧
    (∀ (LB : LegacyBackend) (st : EcdsaGlobals) (t : ACVP_ECDSA_TC),
      t.cipher = .ecdsaKeyVer →
      LB.get_nid_for_curve t.curve ≠ 0 →
      LB.EC_KEY_new_by_curve_name_ok (LB.get_nid_for_curve t.curve) = true →
      (app_ecdsa_handler_legacy LB st (some ⟨some t⟩)).rv = 0 ∧
      (app_ecdsa_handler_legacy LB st (some ⟨some t⟩)).tc =
        some { t with ver_disposition := (LB.EC_KEY_set_public_key_affine_coordinates
          (LB.get_nid_for_curve t.curve) (bn_bin2bn t.qx) (bn_bin2bn t.qy)) }) := by
  constructor
  · intro B st t cn pub hc hnid hcn hpub hfi hpb
    simp [app_ecdsa_handler, hc, acvp_get_ecdsa_alg, hnid, hcn, handleKeyver, hpub,
      hfi, hpb, okRes, errRes]
  · intro LB st t hc hnid hkn
    simp [app_ecdsa_handler_legacy, legacyMdStep, hc, acvp_get_ecdsa_alg, hnid,
      legacyKeyver, hkn, okRes, errRes]

/-- C2 witness: the KeyVer disposition law applied at a concrete valid
point (modern import succeeds, disposition true) and at the legacy
backend rejecting the point (disposition false), both with return 0. -/
theorem c2_witness :
    ((app_ecdsa_handler okBackend st0 (some ⟨some tcKeyver⟩)).rv = 0 ∧
      (app_ecdsa_handler okBackend st0 (some ⟨some tcKeyver⟩)).tc =
        some { tcKeyver with ver_disposition :=
          (okBackend.EVP_PKEY_fromdata 256 [4, 5, 6]).isSome }) ∧
    ((app_ecdsa_handler_legacy badPointLegacy st0 (some ⟨some tcKeyver⟩)).rv = 0 ∧
      (app_ecdsa_handler_legacy badPointLegacy st0 (some ⟨some tcKeyver⟩)).tc =
        some { tcKeyver with ver_disposition := (badPointLegacy.EC_KEY_set_public_key_affine_coordinates
          415 (bn_bin2bn tcKeyver.qx) (bn_bin2bn tcKeyver.qy)) }) :=
  ⟨c2_keyver_disposition.1 okBackend st0 tcKeyver 256 [4, 5, 6]
      (by decide) (by decide) (by decide) (by decide) (by decide) (by decide),
    c2_keyver_disposition.2 badPointLegacy st0 tcKeyver
      (by decide) (by decide) (by decide)⟩

/-- C6: for every SigVer test case whose r or s buffers decode out of the
valid range (zero, or at least the curve order), under a backend verify
primitive honouring the contract that out-of-range components never
verify and never throw, the dispatcher neither crashes nor aborts: the
case completes with return 0 and verified = false, in the modern branch
(`EVP_DigestVerify`) and in the legacy branch (`FIPS_ecdsa_verify_md`)
alike. -/
theorem c6_sigver_out_of_range :
    (∀ (B : Backend) (st : EcdsaGlobals) (t : ACVP_ECDSA_TC) (cn mdn n : Nat)
        (pub : List Nat) (pk : PKey),
      t.cipher = .ecdsaSigVer →
      B.get_nid_for_curve t.curve ≠ 0 →
      B.OSSL_EC_curve_nid2name (B.get_nid_for_curve t.curve) = some cn →
      B.get_md_string_for_hash_alg t.hash_alg = some mdn →
      B.ec_point_to_pub_key t.qx t.qy = some pub →
      B.EVP_PKEY_CTX_new_ok = true →
      B.EVP_PKEY_fromdata_init_ok = true →
      B.OSSL_PARAM_BLD_to_param_ok = true →
      B.EVP_PKEY_fromdata cn pub = some pk →
      B.ECDSA_SIG_new_ok = true →
      B.ECDSA_SIG_set0_ok = true →
      B.EVP_MD_CTX_new_ok = true →
      B.EVP_DigestVerifyInit_ok mdn pk = true →
      (∀ msg r s, (r = 0 ∨ n ≤ r ∨ s = 0 ∨ n ≤ s) →
        B.EVP_DigestVerify mdn pk msg r s = false) →
      (bn_bin2bn t.r = 0 ∨ n ≤ bn_bin2bn t.r ∨
        bn_bin2bn t.s = 0 ∨ n ≤ bn_bin2bn t.s) →
      (app_ecdsa_handler B st (some ⟨some t⟩)).rv = 0 ∧
      (app_ecdsa_handler B st (some ⟨some t⟩)).err = none ∧
      (app_ecdsa_handler B st (some ⟨some t⟩)).tc =
        some { t with ver_disposition := false }) ∧
    (∀ (LB : LegacyBackend) (st : EcdsaGlobals) (t : ACVP_ECDSA_TC) (mdn n : Nat),
      t.cipher = .ecdsaSigVer →
      LB.get_md_for_hash_alg t.hash_alg = some mdn →
      LB.get_nid_for_curve t.curve ≠ 0 →
      LB.EC_KEY_new_by_curve_name_ok (LB.get_nid_for_curve t.curve) = true →
      LB.EC_KEY_set_public_key_affine_coordinates (LB.get_nid_for_curve t.curve)
        (bn_bin2bn t.qx) (bn_bin2bn t.qy) = true →
      (∀ msg r s, (r = 0 ∨ n ≤ r ∨ s = 0 ∨ n ≤ s) →
        LB.FIPS_ecdsa_verify_md (LB.get_nid_for_curve t.curve) (bn_bin2bn t.qx)
          (bn_bin2bn t.qy) msg mdn r s = false) →
      (bn_bin2bn t.r = 0 ∨ n ≤ bn_bin2bn t.r ∨
        bn_bin2bn t.s = 0 ∨ n ≤ bn_bin2bn t.s) →
      (app_ecdsa_handler_legacy LB st (some ⟨some t⟩)).rv = 0 ∧
      (app_ecdsa_handler_legacy LB st (some ⟨some t⟩)).err = none ∧
      (app_ecdsa_handler_legacy LB st (some ⟨some t⟩)).tc =
        some { t with ver_disposition := false }) := by
  constructor
  · intro B st t cn mdn n pub pk hc hnid hcn hmd hpub hctx hfi hpb himp hsn hs0
      hmc hvi hcontract hrange
    have hv := hcontract t.message (bn_bin2bn t.r) (bn_bin2bn t.s) hrange
    simp [app_ecdsa_handler, hc, acvp_get_ecdsa_alg, hnid, hcn, hmd, handleSigver,
      hpub, hctx, hfi, hpb, himp, hsn, hs0, hmc, hvi, hv, okRes, errRes]
  · intro LB st t mdn n hc hmd hnid hkn hco hcontract hrange
    have hv := hcontract t.message (bn_bin2bn t.r) (bn_bin2bn t.s) hrange
    simp [app_ecdsa_handler_legacy, legacyMdStep, hc, hmd, acvp_get_ecdsa_alg, hnid,
      legacySigver, hkn, hco, hv, okRes, errRes]

/-- C6 witness: a SigVer case whose r buffer decodes to 0 completes with
return 0 and verified = false on the concrete modern and legacy backends
enforcing the range contract for the toy order 97. -/
theorem c6_witness :
    ((bn_bin2bn tcBadR.r = 0 ∨ 97 ≤ bn_bin2bn tcBadR.r ∨
        bn_bin2bn tcBadR.s = 0 ∨ 97 ≤ bn_bin2bn tcBadR.s) ∧
      (app_ecdsa_handler okBackend st0 (some ⟨some tcBadR⟩)).rv = 0 ∧
      (app_ecdsa_handler okBackend st0 (some ⟨some tcBadR⟩)).err = none ∧
      (app_ecdsa_handler okBackend st0 (some ⟨some tcBadR⟩)).tc =
        some { tcBadR with ver_disposition := false }) ∧
    ((app_ecdsa_handler_legacy okLegacy st0 (some ⟨some tcBadR⟩)).rv = 0 ∧
      (app_ecdsa_handler_legacy okLegacy st0 (some ⟨some tcBadR⟩)).err = none ∧
      (app_ecdsa_handler_legacy okLegacy st0 (some ⟨some tcBadR⟩)).tc =
        some { tcBadR with ver_disposition := false }) :=
  ⟨⟨by decide,
    c6_sigver_out_of_range.1 okBackend st0 tcBadR 256 32 97 [4, 5, 6]
      ⟨none, some 5, some 6⟩ (by decide) (by decide) (by decide) (by decide)
      (by decide) (by decide) (by decide) (by decide) (by decide) (by decide)
      (by decide) (by decide) (by decide)
      (by
        intro msg r s h
        simp [okBackend]
        omega)
      (by decide)⟩,
    c6_sigver_out_of_range.2 okLegacy st0 tcBadR 32 97
      (by decide) (by decide) (by decide) (by decide) (by decide)
      (by
        intro msg r s h
        simp [okLegacy]
        omega)
      (by decide)⟩

/-- C10: if the first SigGen case of a run carries group id 0 — the
initial value of `ecdsa_current_tg` — the dispatcher treats the empty
cache as a hit in both real branches: the generation block is skipped
and the cache left exactly as it was (no key pair generated), and
signing proceeds with the NULL cached key, so the case aborts at the
signing-init site (modern branch, `EVP_DigestSignInit_ex`) or at the
signing call itself (legacy branch, `FIPS_ecdsa_sign_md`). -/
theorem c10_tg_zero_cache_hit :
    (∀ (B : Backend) (st : EcdsaGlobals) (t : ACVP_ECDSA_TC) (cn mdn : Nat),
      t.cipher = .ecdsaSigGen →
      t.tg_id = 0 →
      st.current_tg = 0 →
      st.group_pkey = none →
      B.get_nid_for_curve t.curve ≠ 0 →
      B.OSSL_EC_curve_nid2name (B.get_nid_for_curve t.curve) = some cn →
      B.get_md_string_for_hash_alg t.hash_alg = some mdn →
      B.EVP_MD_CTX_new_ok = true →
      B.EVP_DigestSignInit_ok mdn none = false →
      (app_ecdsa_handler B st (some ⟨some t⟩)).st = st ∧
      (app_ecdsa_handler B st (some ⟨some t⟩)).err = some .signInitFail ∧
      (app_ecdsa_handler B st (some ⟨some t⟩)).rv = 1) ∧
    (∀ (LB : LegacyBackend) (st : EcdsaGlobals) (t : ACVP_ECDSA_TC) (mdn : Nat),
      t.cipher = .ecdsaSigGen →
      t.tg_id = 0 →
      st.current_tg = 0 →
      st.group_pkey = none →
      LB.get_md_for_hash_alg t.hash_alg = some mdn →
      LB.get_nid_for_curve t.curve ≠ 0 →
      LB.FIPS_ecdsa_sign_md none t.message mdn = none →
      (app_ecdsa_handler_legacy LB st (some ⟨some t⟩)).st = st ∧
      (app_ecdsa_handler_legacy LB st (some ⟨some t⟩)).err = some .signFail ∧
      (app_ecdsa_handler_legacy LB st (some ⟨some t⟩)).rv = 1) := by
  constructor
  · intro B st t cn mdn hc htg hst hkey hnid hcn hmd hmc hsi
    simp [app_ecdsa_handler, hc, acvp_get_ecdsa_alg, hnid, hcn, hmd, handleSiggen,
      siggenGen, hst, htg, hkey, hmc, hsi, errRes, okRes]
  · intro LB st t mdn hc htg hst hkey hmd hnid hsig
    simp [app_ecdsa_handler_legacy, legacyMdStep, hc, hmd, acvp_get_ecdsa_alg, hnid,
      legacySiggen, legacySiggenGen, hst, htg, hkey, hsig, errRes, okRes]

/-- C10 witness: the group-id-0 cache hit at the concrete modern and
legacy backends and the pristine start-of-run cache. -/
theorem c10_witness :
    (st0.current_tg = 0 ∧ st0.group_pkey = none ∧ tcSiggen0.tg_id = 0 ∧
      (app_ecdsa_handler okBackend st0 (some ⟨some tcSiggen0⟩)).st = st0 ∧
      (app_ecdsa_handler okBackend st0 (some ⟨some tcSiggen0⟩)).err =
        some .signInitFail ∧
      (app_ecdsa_handler okBackend st0 (some ⟨some tcSiggen0⟩)).rv = 1) ∧
    ((app_ecdsa_handler_legacy okLegacy st0 (some ⟨some tcSiggen0⟩)).st = st0 ∧
      (app_ecdsa_handler_legacy okLegacy st0 (some ⟨some tcSiggen0⟩)).err =
        some .signFail ∧
      (app_ecdsa_handler_legacy okLegacy st0 (some ⟨some tcSiggen0⟩)).rv = 1) :=
  ⟨⟨by decide, by decide, by decide,
    c10_tg_zero_cache_hit.1 okBackend st0 tcSiggen0 256 32
      (by decide) (by decide) (by decide) (by decide) (by decide) (by decide)
      (by decide) (by decide) (by decide)⟩,
    c10_tg_zero_cache_hit.2 okLegacy st0 tcSiggen0 32
      (by decide) (by decide) (by decide) (by decide) (by decide) (by decide)
      (by decide)⟩

/-! ## Group key cache characterization -/

theorem siggenGen_inl_spec (B : Backend) (st : EcdsaGlobals) (t : ACVP_ECDSA_TC)
    (cn : Nat) (st1 : EcdsaGlobals) (h : siggenGen B st t cn = .inl st1) :
    st1.current_tg = t.tg_id ∧ (st.current_tg = t.tg_id → st1 = st) := by
  unfold siggenGen at h
  by_cases htg : st.current_tg = t.tg_id
  · rw [if_neg (by simpa using htg)] at h
    have hst : st = st1 := by simpa using h
    subst hst
    exact ⟨htg, fun _ => rfl⟩
  · rw [if_pos (by simpa using htg)] at h
    cases f1 : B.EVP_PKEY_CTX_new_ok with
    | false => simp [f1] at h
    | true =>
      cases f2 : B.EVP_PKEY_keygen_init_ok with
      | false => simp [f1, f2] at h
      | true =>
        cases f3 : B.EVP_PKEY_CTX_set_group_name_ok cn with
        | false => simp [f1, f2, f3] at h
        | true =>
          cases hk : B.EVP_PKEY_generate cn with
          | none => simp [f1, f2, f3, hk] at h
          | some k =>
            by_cases hnn : updBN k.qx st.group_Qx = none ∨ updBN k.qy st.group_Qy = none
            · simp [f1, f2, f3, hk, hnn] at h
            · simp [f1, f2, f3, hk, hnn] at h
              subst h
              exact ⟨rfl, fun hcon => absurd hcon htg⟩

theorem handleSiggen_ok_spec (B : Backend) (st : EcdsaGlobals) (t : ACVP_ECDSA_TC)
    (cn mdn : Nat) (h0 : (handleSiggen B st t cn mdn).rv = 0) :
    (handleSiggen B st t cn mdn).st.current_tg = t.tg_id ∧
    (∃ gx gy rv sv,
      (handleSiggen B st t cn mdn).st.group_Qx = some gx ∧
      (handleSiggen B st t cn mdn).st.group_Qy = some gy ∧
      (handleSiggen B st t cn mdn).tc =
        some (writeQy (writeQx (writeRS t rv sv) gx) gy)) ∧
    (st.current_tg = t.tg_id → (handleSiggen B st t cn mdn).st = st) := by
  have hex : ∃ st1, siggenGen B st t cn = Sum.inl st1 := by
    rcases hg2 : siggenGen B st t cn with st1 | p
    · exact ⟨st1, rfl⟩
    · exfalso
      obtain ⟨e, stE⟩ := p
      unfold handleSiggen at h0
      rw [hg2] at h0
      simp [errRes] at h0
  obtain ⟨st1, hgen⟩ := hex
  obtain ⟨htg1, hback⟩ := siggenGen_inl_spec B st t cn st1 hgen
  unfold handleSiggen at h0 ⊢
  rw [hgen] at h0 ⊢
  cases f1 : B.EVP_MD_CTX_new_ok with
  | false => simp [f1, errRes] at h0
  | true =>
    cases f2 : B.EVP_DigestSignInit_ok mdn st1.group_pkey with
    | false => simp [f1, f2, errRes] at h0
    | true =>
      cases f3 : B.calloc_ok with
      | false => simp [f1, f2, f3, errRes] at h0
      | true =>
        cases hsig : B.EVP_DigestSign mdn st1.group_pkey t.message with
        | none => simp [f1, f2, f3, hsig, errRes] at h0
        | some p =>
          obtain ⟨rv, sv⟩ := p
          cases f4 : B.d2i_ECDSA_SIG_ok with
          | false => simp [f1, f2, f3, hsig, f4, errRes] at h0
          | true =>
            cases f5 : B.ECDSA_SIG_get0_ok with
            | false => simp [f1, f2, f3, hsig, f4, f5, errRes] at h0
            | true =>
              cases hqx : st1.group_Qx with
              | none => simp [f1, f2, f3, hsig, f4, f5, hqx, errRes] at h0
              | some gx =>
                cases hqy : st1.group_Qy with
                | none => simp [f1, f2, f3, hsig, f4, f5, hqx, hqy, errRes] at h0
                | some gy =>
                  refine ⟨?_, ⟨gx, gy, rv, sv, ?_, ?_, ?_⟩, ?_⟩
                  · simp [f1, f2, f3, hsig, f4, f5, hqx, hqy, okRes, htg1]
                  · simp [f1, f2, f3, hsig, f4, f5, hqx, hqy, okRes]
                  · simp [f1, f2, f3, hsig, f4, f5, hqx, hqy, okRes]
                  · simp [f1, f2, f3, hsig, f4, f5, hqx, hqy, okRes]
                  · intro hcon
                    simpa [f1, f2, f3, hsig, f4, f5, hqx, hqy, okRes] using hback hcon

theorem siggen_handler_ok_spec (B : Backend) (st : EcdsaGlobals)
    (t : ACVP_ECDSA_TC) (hc : t.cipher = .ecdsaSigGen)
    (h0 : (app_ecdsa_handler B st (some ⟨some t⟩)).rv = 0) :
    (app_ecdsa_handler B st (some ⟨some t⟩)).st.current_tg = t.tg_id ∧
    (∃ gx gy rv sv,
      (app_ecdsa_handler B st (some ⟨some t⟩)).st.group_Qx = some gx ∧
      (app_ecdsa_handler B st (some ⟨some t⟩)).st.group_Qy = some gy ∧
      (app_ecdsa_handler B st (some ⟨some t⟩)).tc =
        some (writeQy (writeQx (writeRS t rv sv) gx) gy)) ∧
    (st.current_tg = t.tg_id → (app_ecdsa_handler B st (some ⟨some t⟩)).st = st) := by
  by_cases h1 : B.get_nid_for_curve t.curve = 0
  · simp [app_ecdsa_handler, hc, acvp_get_ecdsa_alg, h1, errRes] at h0
  · cases h2 : B.OSSL_EC_curve_nid2name (B.get_nid_for_curve t.curve) with
    | none => simp [app_ecdsa_handler, hc, acvp_get_ecdsa_alg, h1, h2, errRes] at h0
    | some cn =>
      cases h3 : B.get_md_string_for_hash_alg t.hash_alg with
      | none => simp [app_ecdsa_handler, hc, acvp_get_ecdsa_alg, h1, h2, h3, errRes] at h0
      | some mdn =>
        have happ : app_ecdsa_handler B st (some ⟨some t⟩) =
            handleSiggen B st t cn mdn := by
          simp [app_ecdsa_handler, hc, acvp_get_ecdsa_alg, h1, h2, h3]
        rw [happ] at h0 ⊢
        exact handleSiggen_ok_spec B st t cn mdn h0

theorem legacySiggenGen_inl_spec (LB : LegacyBackend) (st : EcdsaGlobals)
    (t : ACVP_ECDSA_TC) (nid : Nat) (st1 : EcdsaGlobals)
    (h : legacySiggenGen LB st t nid = .inl st1) :
    st1.current_tg = t.tg_id ∧ (st.current_tg = t.tg_id → st1 = st) := by
  unfold legacySiggenGen at h
  by_cases htg : st.current_tg = t.tg_id
  · rw [if_neg (by simpa using htg)] at h
    have hst : st = st1 := by simpa using h
    subst hst
    exact ⟨htg, fun _ => rfl⟩
  · rw [if_pos (by simpa using htg)] at h
    cases f1 : LB.EC_KEY_new_by_curve_name_ok nid with
    | false => simp [f1] at h
    | true =>
      cases hk : LB.EC_KEY_generate_key nid with
      | none => simp [f1, hk] at h
      | some k =>
        by_cases hq : LB.ec_get_pubkey_ok = true ∧ k.qx.isSome = true ∧ k.qy.isSome = true
        · simp [f1, hk, hq.1, hq.2.1, hq.2.2] at h
          subst h
          exact ⟨rfl, fun hcon => absurd hcon htg⟩
        · simp [f1, hk, hq] at h

theorem legacySiggen_ok_spec (LB : LegacyBackend) (st : EcdsaGlobals)
    (t : ACVP_ECDSA_TC) (nid mdn : Nat)
    (h0 : (legacySiggen LB st t nid mdn).rv = 0) :
    (legacySiggen LB st t nid mdn).st.current_tg = t.tg_id ∧
    (∃ gx gy rv sv,
      (legacySiggen LB st t nid mdn).st.group_Qx = some gx ∧
      (legacySiggen LB st t nid mdn).st.group_Qy = some gy ∧
      (legacySiggen LB st t nid mdn).tc =
        some (writeRS (writeQy (writeQx t gx) gy) rv sv)) ∧
    (st.current_tg = t.tg_id → (legacySiggen LB st t nid mdn).st = st) := by
  have hex : ∃ st1, legacySiggenGen LB st t nid = Sum.inl st1 := by
    rcases hg2 : legacySiggenGen LB st t nid with st1 | p
    · exact ⟨st1, rfl⟩
    · exfalso
      obtain ⟨e, stE⟩ := p
      unfold legacySiggen at h0
      rw [hg2] at h0
      simp [errRes] at h0
  obtain ⟨st1, hgen⟩ := hex
  obtain ⟨htg1, hback⟩ := legacySiggenGen_inl_spec LB st t nid st1 hgen
  unfold legacySiggen at h0 ⊢
  rw [hgen] at h0 ⊢
  cases hsig : LB.FIPS_ecdsa_sign_md st1.group_pkey t.message mdn with
  | none => simp [hsig, errRes] at h0
  | some p =>
    obtain ⟨rv, sv⟩ := p
    cases hqx : st1.group_Qx with
    | none => simp [hsig, hqx, errRes] at h0
    | some gx =>
      cases hqy : st1.group_Qy with
      | none => simp [hsig, hqx, hqy, errRes] at h0
      | some gy =>
        refine ⟨?_, ⟨gx, gy, rv, sv, ?_, ?_, ?_⟩, ?_⟩
        · simp [hsig, hqx, hqy, okRes, htg1]
        · simp [hsig, hqx, hqy, okRes]
        · simp [hsig, hqx, hqy, okRes]
        · simp [hsig, hqx, hqy, okRes]
        · intro hcon
          simpa [hsig, hqx, hqy, okRes] using hback hcon

theorem legacy_siggen_handler_ok_spec (LB : LegacyBackend) (st : EcdsaGlobals)
    (t : ACVP_ECDSA_TC) (hc : t.cipher = .ecdsaSigGen)
    (h0 : (app_ecdsa_handler_legacy LB st (some ⟨some t⟩)).rv = 0) :
    (app_ecdsa_handler_legacy LB st (some ⟨some t⟩)).st.current_tg = t.tg_id ∧
    (∃ gx gy rv sv,
      (app_ecdsa_handler_legacy LB st (some ⟨some t⟩)).st.group_Qx = some gx ∧
      (app_ecdsa_handler_legacy LB st (some ⟨some t⟩)).st.group_Qy = some gy ∧
      (app_ecdsa_handler_legacy LB st (some ⟨some t⟩)).tc =
        some (writeRS (writeQy (writeQx t gx) gy) rv sv)) ∧
    (st.current_tg = t.tg_id →
      (app_ecdsa_handler_legacy LB st (some ⟨some t⟩)).st = st) := by
  cases h3 : LB.get_md_for_hash_alg t.hash_alg with
  | none =>
    simp [app_ecdsa_handler_legacy, legacyMdStep, hc, h3, acvp_get_ecdsa_alg,
      errRes] at h0
  | some mdn =>
    by_cases h1 : LB.get_nid_for_curve t.curve = 0
    · simp [app_ecdsa_handler_legacy, legacyMdStep, hc, h3, h1, acvp_get_ecdsa_alg,
        errRes] at h0
    · have happ : app_ecdsa_handler_legacy LB st (some ⟨some t⟩) =
          legacySiggen LB st t (LB.get_nid_for_curve t.curve) mdn := by
        simp [app_ecdsa_handler_legacy, legacyMdStep, hc, h3, h1, acvp_get_ecdsa_alg]
      rw [happ] at h0 ⊢
      exact legacySiggen_ok_spec LB st t (LB.get_nid_for_curve t.curve) mdn h0

/-- C3: group key caching in SigGen, in the modern and the legacy branch
alike.  First and third parts: two consecutive SigGen cases sharing a
group id that both complete produce equal Qx and Qy outputs, and the
second call leaves the cache untouched (the cached key is reused, no key
generation occurs).  Second and fourth parts: a SigGen case whose group
id differs from the cached one, whose generation steps succeed, records
the new group id and overwrites the cached key pair and its coordinates
with the freshly generated ones. -/
theorem c3_group_caching :
    (∀ (B : Backend) (st : EcdsaGlobals) (t1 t2 : ACVP_ECDSA_TC),
      t1.cipher = .ecdsaSigGen → t2.cipher = .ecdsaSigGen →
      t2.tg_id = t1.tg_id →
      (app_ecdsa_handler B st (some ⟨some t1⟩)).rv = 0 →
      (app_ecdsa_handler B (app_ecdsa_handler B st (some ⟨some t1⟩)).st
        (some ⟨some t2⟩)).rv = 0 →
      ∃ u1 u2,
        (app_ecdsa_handler B st (some ⟨some t1⟩)).tc = some u1 ∧
        (app_ecdsa_handler B (app_ecdsa_handler B st (some ⟨some t1⟩)).st
          (some ⟨some t2⟩)).tc = some u2 ∧
        u2.qx = u1.qx ∧ u2.qy = u1.qy ∧
        (app_ecdsa_handler B (app_ecdsa_handler B st (some ⟨some t1⟩)).st
          (some ⟨some t2⟩)).st = (app_ecdsa_handler B st (some ⟨some t1⟩)).st) ∧
    (∀ (B : Backend) (st : EcdsaGlobals) (t : ACVP_ECDSA_TC) (cn mdn : Nat)
        (k : PKey) (kx ky : Nat),
      t.cipher = .ecdsaSigGen →
      st.current_tg ≠ t.tg_id →
      B.get_nid_for_curve t.curve ≠ 0 →
      B.OSSL_EC_curve_nid2name (B.get_nid_for_curve t.curve) = some cn →
      B.get_md_string_for_hash_alg t.hash_alg = some mdn →
      B.EVP_PKEY_CTX_new_ok = true →
      B.EVP_PKEY_keygen_init_ok = true →
      B.EVP_PKEY_CTX_set_group_name_ok cn = true →
      B.EVP_PKEY_generate cn = some k →
      k.qx = some kx → k.qy = some ky →
      (app_ecdsa_handler B st (some ⟨some t⟩)).st.current_tg = t.tg_id ∧
      (app_ecdsa_handler B st (some ⟨some t⟩)).st.group_pkey = some k ∧
      (app_ecdsa_handler B st (some ⟨some t⟩)).st.group_Qx = some kx ∧
      (app_ecdsa_handler B st (some ⟨some t⟩)).st.group_Qy = some ky) ∧
    (∀ (LB : LegacyBackend) (st : EcdsaGlobals) (t1 t2 : ACVP_ECDSA_TC),
      t1.cipher = .ecdsaSigGen → t2.cipher = .ecdsaSigGen →
      t2.tg_id = t1.tg_id →
      (app_ecdsa_handler_legacy LB st (some ⟨some t1⟩)).rv = 0 →
      (app_ecdsa_handler_legacy LB (app_ecdsa_handler_legacy LB st (some ⟨some t1⟩)).st
        (some ⟨some t2⟩)).rv = 0 →
      ∃ u1 u2,
        (app_ecdsa_handler_legacy LB st (some ⟨some t1⟩)).tc = some u1 ∧
        (app_ecdsa_handler_legacy LB (app_ecdsa_handler_legacy LB st (some ⟨some t1⟩)).st
          (some ⟨some t2⟩)).tc = some u2 ∧
        u2.qx = u1.qx ∧ u2.qy = u1.qy ∧
        (app_ecdsa_handler_legacy LB (app_ecdsa_handler_legacy LB st (some ⟨some t1⟩)).st
          (some ⟨some t2⟩)).st = (app_ecdsa_handler_legacy LB st (some ⟨some t1⟩)).st) ∧
    (∀ (LB : LegacyBackend) (st : EcdsaGlobals) (t : ACVP_ECDSA_TC) (mdn : Nat)
        (k : PKey) (kx ky : Nat),
      t.cipher = .ecdsaSigGen →
      st.current_tg ≠ t.tg_id →
      LB.get_md_for_hash_alg t.hash_alg = some mdn →
      LB.get_nid_for_curve t.curve ≠ 0 →
      LB.EC_KEY_new_by_curve_name_ok (LB.get_nid_for_curve t.curve) = true →
      LB.EC_KEY_generate_key (LB.get_nid_for_curve t.curve) = some k →
      LB.ec_get_pubkey_ok = true →
      k.qx = some kx → k.qy = some ky →
      (app_ecdsa_handler_legacy LB st (some ⟨some t⟩)).st.current_tg = t.tg_id ∧
      (app_ecdsa_handler_legacy LB st (some ⟨some t⟩)).st.group_pkey = some k ∧
      (app_ecdsa_handler_legacy LB st (some ⟨some t⟩)).st.group_Qx = some kx ∧
      (app_ecdsa_handler_legacy LB st (some ⟨some t⟩)).st.group_Qy = some ky) := by
  refine ⟨?_, ?_, ?_, ?_⟩
  · intro B st t1 t2 hc1 hc2 hg h1 h2
    obtain ⟨htgA, ⟨gx1, gy1, rv1, sv1, hqxA, hqyA, htcA⟩, _⟩ :=
      siggen_handler_ok_spec B st t1 hc1 h1
    obtain ⟨htgB, ⟨gx2, gy2, rv2, sv2, hqxB, hqyB, htcB⟩, hbackB⟩ :=
      siggen_handler_ok_spec B (app_ecdsa_handler B st (some ⟨some t1⟩)).st t2 hc2 h2
    have hsame : (app_ecdsa_handler B (app_ecdsa_handler B st (some ⟨some t1⟩)).st
        (some ⟨some t2⟩)).st = (app_ecdsa_handler B st (some ⟨some t1⟩)).st := by
      apply hbackB
      rw [hg]
      exact htgA
    have hgx : gx1 = gx2 := by
      have hx := hqxB
      rw [hsame, hqxA] at hx
      exact Option.some_injective _ hx
    have hgy : gy1 = gy2 := by
      have hy := hqyB
      rw [hsame, hqyA] at hy
      exact Option.some_injective _ hy
    refine ⟨_, _, htcA, htcB, ?_, ?_, hsame⟩
    · simp [writeQx, writeQy, writeRS, hgx]
    · simp [writeQx, writeQy, writeRS, hgy]
  · intro B st t cn mdn k kx ky hc htg hnid hcn hmd f1 f2 f3 hk hkx hky
    have happ : app_ecdsa_handler B st (some ⟨some t⟩) =
        handleSiggen B st t cn mdn := by
      simp [app_ecdsa_handler, hc, acvp_get_ecdsa_alg, hnid, hcn, hmd]
    have hgen : siggenGen B st t cn = Sum.inl
        { group_Qx := some kx, group_Qy := some ky, current_tg := t.tg_id,
          group_pkey := some k } := by
      simp [siggenGen, htg, f1, f2, f3, hk, updBN, hkx, hky]
    rw [happ]
    unfold handleSiggen
    rw [hgen]
    dsimp only
    refine ⟨?_, ?_, ?_, ?_⟩ <;>
      (repeat' split) <;>
      simp [errRes, okRes]
  · intro LB st t1 t2 hc1 hc2 hg h1 h2
    obtain ⟨htgA, ⟨gx1, gy1, rv1, sv1, hqxA, hqyA, htcA⟩, _⟩ :=
      legacy_siggen_handler_ok_spec LB st t1 hc1 h1
    obtain ⟨htgB, ⟨gx2, gy2, rv2, sv2, hqxB, hqyB, htcB⟩, hbackB⟩ :=
      legacy_siggen_handler_ok_spec LB
        (app_ecdsa_handler_legacy LB st (some ⟨some t1⟩)).st t2 hc2 h2
    have hsame : (app_ecdsa_handler_legacy LB
        (app_ecdsa_handler_legacy LB st (some ⟨some t1⟩)).st (some ⟨some t2⟩)).st =
        (app_ecdsa_handler_legacy LB st (some ⟨some t1⟩)).st := by
      apply hbackB
      rw [hg]
      exact htgA
    have hgx : gx1 = gx2 := by
      have hx := hqxB
      rw [hsame, hqxA] at hx
      exact Option.some_injective _ hx
    have hgy : gy1 = gy2 := by
      have hy := hqyB
      rw [hsame, hqyA] at hy
      exact Option.some_injective _ hy
    refine ⟨_, _, htcA, htcB, ?_, ?_, hsame⟩
    · simp [writeQx, writeQy, writeRS, hgx]
    · simp [writeQx, writeQy, writeRS, hgy]
  · intro LB st t mdn k kx ky hc htg hmd hnid f1 hk hpk hkx hky
    have happ : app_ecdsa_handler_legacy LB st (some ⟨some t⟩) =
        legacySiggen LB st t (LB.get_nid_for_curve t.curve) mdn := by
      simp [app_ecdsa_handler_legacy, legacyMdStep, hc, hmd, hnid, acvp_get_ecdsa_alg]
    have hgen : legacySiggenGen LB st t (LB.get_nid_for_curve t.curve) = Sum.inl
        { group_Qx := some kx, group_Qy := some ky, current_tg := t.tg_id,
          group_pkey := some k } := by
      simp [legacySiggenGen, htg, f1, hk, hpk, hkx, hky]
    rw [happ]
    unfold legacySiggen
    rw [hgen]
    dsimp only
    refine ⟨?_, ?_, ?_, ?_⟩ <;>
      (repeat' split) <;>
      simp [errRes, okRes]

/-- C3 witness: two completed SigGen cases of group 1 starting from the
pristine cache share their Qx, Qy outputs with an unchanged cache, and a
group-2 case arriving at the group-1 cache replaces the cached key with
the freshly generated one — on the concrete modern and legacy backends
alike. -/
theorem c3_witness :
    (∃ u1 u2,
      (app_ecdsa_handler okBackend st0 (some ⟨some tcSiggen1⟩)).tc = some u1 ∧
      (app_ecdsa_handler okBackend
        (app_ecdsa_handler okBackend st0 (some ⟨some tcSiggen1⟩)).st
        (some ⟨some tcSiggen1⟩)).tc = some u2 ∧
      u2.qx = u1.qx ∧ u2.qy = u1.qy ∧
      (app_ecdsa_handler okBackend
        (app_ecdsa_handler okBackend st0 (some ⟨some tcSiggen1⟩)).st
        (some ⟨some tcSiggen1⟩)).st =
        (app_ecdsa_handler okBackend st0 (some ⟨some tcSiggen1⟩)).st) ∧
    ((app_ecdsa_handler okBackend stCached (some ⟨some tcSiggen2⟩)).st.current_tg =
        tcSiggen2.tg_id ∧
      (app_ecdsa_handler okBackend stCached (some ⟨some tcSiggen2⟩)).st.group_pkey =
        some ⟨some 7, some 5, some 6⟩ ∧
      (app_ecdsa_handler okBackend stCached (some ⟨some tcSiggen2⟩)).st.group_Qx =
        some 5 ∧
      (app_ecdsa_handler okBackend stCached (some ⟨some tcSiggen2⟩)).st.group_Qy =
        some 6) ∧
    (∃ u1 u2,
      (app_ecdsa_handler_legacy okLegacy st0 (some ⟨some tcSiggen1⟩)).tc = some u1 ∧
      (app_ecdsa_handler_legacy okLegacy
        (app_ecdsa_handler_legacy okLegacy st0 (some ⟨some tcSiggen1⟩)).st
        (some ⟨some tcSiggen1⟩)).tc = some u2 ∧
      u2.qx = u1.qx ∧ u2.qy = u1.qy ∧
      (app_ecdsa_handler_legacy okLegacy
        (app_ecdsa_handler_legacy okLegacy st0 (some ⟨some tcSiggen1⟩)).st
        (some ⟨some tcSiggen1⟩)).st =
        (app_ecdsa_handler_legacy okLegacy st0 (some ⟨some tcSiggen1⟩)).st) ∧
    ((app_ecdsa_handler_legacy okLegacy stCached (some ⟨some tcSiggen2⟩)).st.current_tg =
        tcSiggen2.tg_id ∧
      (app_ecdsa_handler_legacy okLegacy stCached (some ⟨some tcSiggen2⟩)).st.group_pkey =
        some ⟨some 7, some 5, some 6⟩ ∧
      (app_ecdsa_handler_legacy okLegacy stCached (some ⟨some tcSiggen2⟩)).st.group_Qx =
        some 5 ∧
      (app_ecdsa_handler_legacy okLegacy stCached (some ⟨some tcSiggen2⟩)).st.group_Qy =
        some 6) :=
  ⟨c3_group_caching.1 okBackend st0 tcSiggen1 tcSiggen1 (by decide) (by decide) rfl
      (by decide) (by decide),
    c3_group_caching.2.1 okBackend stCached tcSiggen2 256 32 ⟨some 7, some 5, some 6⟩ 5 6
      (by decide) (by decide) (by decide) (by decide) (by decide) (by decide)
      (by decide) (by decide) (by decide) (by decide) (by decide),
    c3_group_caching.2.2.1 okLegacy st0 tcSiggen1 tcSiggen1 (by decide) (by decide) rfl
      (by decide) (by decide),
    c3_group_caching.2.2.2 okLegacy stCached tcSiggen2 32 ⟨some 7, some 5, some 6⟩ 5 6
      (by decide) (by decide) (by decide) (by decide) (by decide) (by decide)
      (by decide) (by decide) (by decide)⟩

end Acvp
